import Mathlib

/-!
# Verification of `start_server.py` (static CORS file server)

Shallow embedding of the single-file static file server. The script
configures Python's standard static-file request handler, overrides
`end_headers` to append three fixed CORS headers to every response,
changes the working directory to the base directory, binds a TCP socket
on `0.0.0.0:5000`, prints three startup lines and enters a blocking
accept loop.

The request-handling and socket behavior of the standard library
(`SimpleHTTPRequestHandler`, `socketserver.TCPServer`) is not part of
the repository's source; those parts are modelled from the spec, and
marked as such in their doc comments. The configuration constants, the
`end_headers` override and the top-level startup sequence are embedded
directly from `start_server.py`.
-/

namespace StartServer

/-- `PORT = 5000` from `start_server.py` line 6. -/
def PORT : Nat := 5000

/-- `DIRECTORY = "."` from `start_server.py` line 7. -/
def DIRECTORY : String := "."

/-- The host string passed to `socketserver.TCPServer` on line 21. -/
def HOST : String := "0.0.0.0"

/-- A single HTTP response header: a name/value pair. -/
structure Header where
  name : String
  value : String
deriving DecidableEq, Repr

/-- The three CORS headers appended by the `end_headers` override
(`start_server.py` lines 14-16), in the order they are sent. -/
def corsHeaders : List Header :=
  [⟨"Access-Control-Allow-Origin", "*"⟩,
   ⟨"Access-Control-Allow-Methods", "GET, POST, OPTIONS"⟩,
   ⟨"Access-Control-Allow-Headers", "Content-Type"⟩]

/-- The names of the three CORS headers. -/
def corsNames : List String :=
  ["Access-Control-Allow-Origin",
   "Access-Control-Allow-Methods",
   "Access-Control-Allow-Headers"]

/-- The `end_headers` override (`start_server.py` lines 13-17): the three
CORS headers are appended to the headers the handler already buffered,
then the whole block is flushed by `super().end_headers()`. The result is
the final header block of the response. -/
def end_headers (buffered : List Header) : List Header :=
  buffered ++ corsHeaders

/-- An HTTP response as observed by the client: status code, final header
block, body bytes. -/
structure Response where
  status : Nat
  headers : List Header
  body : List Nat
deriving DecidableEq, Repr

/-- Build a response whose header block is finalized through the
`end_headers` override: every response path of the handler flushes its
headers through `end_headers`. -/
def respond (status : Nat) (buffered : List Header) (body : List Nat) : Response :=
  ⟨status, end_headers buffered, body⟩

/-- Bytes of a string (one code point per byte slot in the model). -/
def strBytes (s : String) : List Nat :=
  s.toList.map Char.toNat

/-- Modelled from the spec: the "minimal error body" the underlying
handler (`SimpleHTTPRequestHandler`, not in src/) sends with an error
status such as 404. -/
def errorBody (code : Nat) (message : String) : List Nat :=
  strBytes ("<html><body><h1>Error " ++ toString code ++ ": " ++ message ++
            "</h1></body></html>")

/-- Modelled from the spec: the headers the underlying handler buffers
for an error response (content type and content length), before the
`end_headers` override appends the CORS headers. -/
def errorResponse (code : Nat) (message : String) : Response :=
  respond code
    [⟨"Content-Type", "text/html"⟩,
     ⟨"Content-Length", toString (errorBody code message).length⟩]
    (errorBody code message)

/-- `true` when `suff` is a suffix of `s` (computable string suffix
test). -/
def strEndsWith (s suff : String) : Bool :=
  suff.toList.isSuffixOf s.toList

/-- Modelled from the spec: best-effort MIME mapping from the file
extension, as done by the underlying handler's `guess_type`
(not in src/). -/
def guess_type (name : String) : String :=
  if strEndsWith name ".html" then "text/html"
  else if strEndsWith name ".htm" then "text/html"
  else if strEndsWith name ".css" then "text/css"
  else if strEndsWith name ".js" then "text/javascript"
  else if strEndsWith name ".json" then "application/json"
  else if strEndsWith name ".png" then "image/png"
  else if strEndsWith name ".txt" then "text/plain"
  else "application/octet-stream"

/-- A filesystem entry: a regular file with its byte content, or a
directory. -/
inductive Entry where
  | file (bytes : List Nat)
  | dir
deriving DecidableEq, Repr

/-- A filesystem: a finite association of absolute paths (as component
lists from the filesystem root) to entries. -/
abbrev FileSystem := List (List String × Entry)

/-- Look up an absolute path in the filesystem. -/
def fsLookup (fs : FileSystem) (p : List String) : Option Entry :=
  match fs with
  | [] => none
  | (q, e) :: rest => if q = p then some e else fsLookup rest p

/-- Split a character list at every occurrence of `sep`. -/
def splitOnChar (sep : Char) : List Char → List (List Char)
  | [] => [[]]
  | c :: cs =>
    match splitOnChar sep cs with
    | [] => if c = sep then [[], []] else [[c]]
    | w :: ws => if c = sep then [] :: w :: ws else (c :: w) :: ws

/-- Split a string at every occurrence of the character `sep`. -/
def splitString (sep : Char) (s : String) : List String :=
  (splitOnChar sep s.toList).map String.mk

/-- Strip the query string and fragment from a request path, as the
underlying handler does before resolving it: keep everything before the
first `?` or `#`. -/
def stripQuery (p : String) : String :=
  String.mk (p.toList.takeWhile (fun c => c ≠ '?' && c ≠ '#'))

/-- Modelled from the spec: resolution of the request path's components
against the base directory by the underlying handler (not in src/).
Empty components and `.` are ignored; `..` backs out one component and
the request is rejected (`none`) when it would escape the base
directory, per the spec: "If the path resolves outside the base
directory (e.g., via `..` traversal), the request is rejected". -/
def resolveComponents (acc : List String) : List String → Option (List String)
  | [] => some acc
  | w :: ws =>
    if w = "" ∨ w = "." then resolveComponents acc ws
    else if w = ".." then
      match acc with
      | [] => none
      | _ => resolveComponents acc.dropLast ws
    else resolveComponents (acc ++ [w]) ws

/-- Resolve a raw request path to components relative to the base
directory, or `none` when it is rejected as escaping the base
directory. -/
def resolvePath (p : String) : Option (List String) :=
  resolveComponents [] (splitString '/' (stripQuery p))

/-- A parsed HTTP request line. -/
structure Request where
  method : String
  path : String
  version : String
deriving DecidableEq, Repr

/-- Modelled from the spec: request-line parsing by the underlying
handler (not in src/): method, path and protocol version separated by
single spaces; anything else is malformed. -/
def parseRequest (line : String) : Option Request :=
  match splitString ' ' line with
  | [m, p, v] =>
      if ("HTTP/".toList).isPrefixOf v.toList then some ⟨m, p, v⟩ else none
  | _ => none

/-- The server configuration fixed at startup: the filesystem visible to
the process and the absolute path of the base directory, as components
from the filesystem root. -/
structure ServerConfig where
  fs : FileSystem
  base : List String
deriving Repr

/-- Names of the immediate children of a directory, used for the
generated listing page. -/
def childNames (fs : FileSystem) (p : List String) : List String :=
  (fs.filter (fun e => e.1.length = p.length + 1 && p.isPrefixOf e.1)).map
    (fun e => e.1.getLastD "")

/-- Modelled from the spec: the generated HTML directory listing body
produced by the underlying handler for an existing directory. -/
def listingBody (fs : FileSystem) (p : List String) : List Nat :=
  strBytes ("<html><body><ul>" ++
    String.join ((childNames fs p).map (fun n => "<li>" ++ n ++ "</li>")) ++
    "</ul></body></html>")

/-- Modelled from the spec: the underlying handler's treatment of a GET
request (not in src/): resolve the path against the base directory;
an existing regular file is returned with status 200, its exact bytes,
a MIME type from the extension and a `Content-Length`; an existing
directory yields a generated HTML listing with status 200; a
non-existent path yields 404 with a minimal error body; a path escaping
the base directory is rejected as not found. Every branch finalizes its
headers through the overridden `end_headers` (via `respond`). -/
def handleGET (cfg : ServerConfig) (rawPath : String) : Response :=
  match resolvePath rawPath with
  | none => errorResponse 404 "File not found"
  | some comps =>
    match fsLookup cfg.fs (cfg.base ++ comps) with
    | none => errorResponse 404 "File not found"
    | some (Entry.file bytes) =>
        respond 200
          [⟨"Content-Type", guess_type (comps.getLastD "")⟩,
           ⟨"Content-Length", toString bytes.length⟩]
          bytes
    | some Entry.dir =>
        respond 200
          [⟨"Content-Type", "text/html"⟩,
           ⟨"Content-Length", toString (listingBody cfg.fs (cfg.base ++ comps)).length⟩]
          (listingBody cfg.fs (cfg.base ++ comps))

/-- Modelled from the spec: method dispatch of the underlying handler
(not in src/): GET serves the file, HEAD sends the same status and
headers with no body, and any other method (including POST and OPTIONS)
is answered by the default 501 error response. -/
def handleRequest (cfg : ServerConfig) (req : Request) : Response :=
  if req.method = "GET" then handleGET cfg req.path
  else if req.method = "HEAD" then
    let r := handleGET cfg req.path
    ⟨r.status, r.headers, []⟩
  else errorResponse 501 "Unsupported method"

/-- Modelled from the spec: one accepted connection (not in src/): a
malformed request line is answered with the default 400 error response;
a well-formed one is dispatched by method. -/
def handleConnection (cfg : ServerConfig) (raw : String) : Response :=
  match parseRequest raw with
  | none => errorResponse 400 "Bad request syntax"
  | some req => handleRequest cfg req

/-- Modelled from the spec: the blocking accept loop (`serve_forever`,
line 25): connections are handled one after the other against the same
immutable configuration; no request changes the server's state. -/
def serveAll (cfg : ServerConfig) : List String → List Response
  | [] => []
  | c :: cs => handleConnection cfg c :: serveAll cfg cs

/-! ## Startup sequence (lines 19-25 of `start_server.py`) -/

/-- An observable effect of the startup code. -/
inductive Effect where
  | chdir (dir : String)
  | bindAttempt (host : String) (port : Nat)
  | printLine (s : String)
  | serveForever
deriving DecidableEq, Repr

/-- Modelled from the spec: OS-level TCP bind (not in src/): binding
fails when the port is already bound (no SO_REUSEPORT-style silent
double-bind); otherwise the new binding is recorded. -/
def bindSocket (bound : List (String × Nat)) (host : String) (port : Nat) :
    Except String (List (String × Nat)) :=
  if bound.any (fun b => b.2 = port) then Except.error "Address already in use"
  else Except.ok ((host, port) :: bound)

/-- First startup line (line 22, f-string interpolating `PORT`). -/
def startupLine1 : String :=
  "✅ DHA Document Generator Server running at http://localhost:" ++ toString PORT

/-- Second startup line (line 23). -/
def startupLine2 : String :=
  "📄 Navigate to http://localhost:5000 in your browser"

/-- Third startup line (line 24): `print` with two arguments joins them
with a space; `os.getcwd()` is the absolute path of the serving
directory. -/
def startupLine3 (cwd : String) : String :=
  "📁 Serving files from: " ++ cwd

/-- The top-level startup code of `start_server.py` (lines 19-25) as a
trace of effects together with the exit outcome: `os.chdir(DIRECTORY)`;
the bind attempt of `socketserver.TCPServer(("0.0.0.0", PORT), ...)`;
on bind failure the uncaught exception terminates the process with exit
code 1; on success the three startup lines are printed in order and
`serve_forever` blocks, so the process never exits on its own
(outcome `none`). `bound` is the set of TCP bindings already held in
the OS and `cwd` the absolute path of the working directory. -/
def main_trace (bound : List (String × Nat)) (cwd : String) :
    List Effect × Option Nat :=
  let pre : List Effect := [Effect.chdir DIRECTORY, Effect.bindAttempt HOST PORT]
  match bindSocket bound HOST PORT with
  | Except.error _ => (pre, some 1)
  | Except.ok _ =>
      (pre ++ [Effect.printLine startupLine1, Effect.printLine startupLine2,
               Effect.printLine (startupLine3 cwd), Effect.serveForever],
       none)

/-- Whether an effect is a `chdir`. -/
def Effect.isChdir : Effect → Bool
  | Effect.chdir _ => true
  | _ => false

/-- Whether an effect is a bind attempt. -/
def Effect.isBindAttempt : Effect → Bool
  | Effect.bindAttempt _ _ => true
  | _ => false

/-- The printed line of an effect, when it is a print. -/
def Effect.printOf : Effect → Option String
  | Effect.printLine s => some s
  | _ => none

/-! ## Helper lemmas -/

/-- No header in the list uses one of the three CORS header names. -/
def noCorsNames (hs : List Header) : Bool :=
  hs.all (fun h => !(corsNames.contains h.name))

theorem noCors_ct_cl (a b : String) :
    noCorsNames [⟨"Content-Type", a⟩, ⟨"Content-Length", b⟩] = true := by
  simp [noCorsNames, corsNames]

theorem handleGET_headers_split (cfg : ServerConfig) (p : String) :
    ∃ hs, (handleGET cfg p).headers = hs ++ corsHeaders ∧ noCorsNames hs = true := by
  cases hres : resolvePath p with
  | none =>
      refine ⟨[⟨"Content-Type", "text/html"⟩,
               ⟨"Content-Length", toString (errorBody 404 "File not found").length⟩],
              ?_, noCors_ct_cl _ _⟩
      simp [handleGET, hres, errorResponse, respond, end_headers]
  | some comps =>
      cases hl : fsLookup cfg.fs (cfg.base ++ comps) with
      | none =>
          refine ⟨[⟨"Content-Type", "text/html"⟩,
                   ⟨"Content-Length", toString (errorBody 404 "File not found").length⟩],
                  ?_, noCors_ct_cl _ _⟩
          simp [handleGET, hres, hl, errorResponse, respond, end_headers]
      | some e =>
          cases e with
          | file bytes =>
              refine ⟨[⟨"Content-Type", guess_type (comps.getLastD "")⟩,
                       ⟨"Content-Length", toString bytes.length⟩],
                      ?_, noCors_ct_cl _ _⟩
              simp [handleGET, hres, hl, respond, end_headers]
          | dir =>
              refine ⟨[⟨"Content-Type", "text/html"⟩,
                       ⟨"Content-Length",
                        toString (listingBody cfg.fs (cfg.base ++ comps)).length⟩],
                      ?_, noCors_ct_cl _ _⟩
              simp [handleGET, hres, hl, respond, end_headers]

theorem handleConnection_headers_split (cfg : ServerConfig) (raw : String) :
    ∃ hs, (handleConnection cfg raw).headers = hs ++ corsHeaders ∧
      noCorsNames hs = true := by
  cases hp : parseRequest raw with
  | none =>
      refine ⟨[⟨"Content-Type", "text/html"⟩,
               ⟨"Content-Length",
                toString (errorBody 400 "Bad request syntax").length⟩],
              ?_, noCors_ct_cl _ _⟩
      simp [handleConnection, hp, errorResponse, respond, end_headers]
  | some req =>
      by_cases hg : req.method = "GET"
      · obtain ⟨hs, heq, hno⟩ := handleGET_headers_split cfg req.path
        refine ⟨hs, ?_, hno⟩
        simpa [handleConnection, hp, handleRequest, hg] using heq
      · by_cases hh : req.method = "HEAD"
        · obtain ⟨hs, heq, hno⟩ := handleGET_headers_split cfg req.path
          refine ⟨hs, ?_, hno⟩
          simpa [handleConnection, hp, handleRequest, hg, hh] using heq
        · refine ⟨[⟨"Content-Type", "text/html"⟩,
                   ⟨"Content-Length",
                    toString (errorBody 501 "Unsupported method").length⟩],
                  ?_, noCors_ct_cl _ _⟩
          simp [handleConnection, hp, handleRequest, hg, hh, errorResponse,
                respond, end_headers]

theorem countP_name_zero (hs : List Header) (hno : noCorsNames hs = true)
    (n : String) (hn : corsNames.contains n = true) :
    hs.countP (fun h => h.name == n) = 0 := by
  induction hs with
  | nil => rfl
  | cons h t ih =>
    simp only [noCorsNames, List.all_cons, Bool.and_eq_true, Bool.not_eq_true'] at hno
    rw [List.countP_cons, ih (by simpa [noCorsNames] using hno.2)]
    cases he : (h.name == n) with
    | false => simp [he]
    | true =>
      exfalso
      have hne : h.name = n := by simpa using he
      rw [hne, hn] at hno
      simp at hno

/-! ## Claim theorems -/

/-- C1: For every response the server sends — any request, well-formed
or malformed, hence any status code (200, 404, 501, 400, including
responses to OPTIONS requests and error responses) — the final header
block contains the three CORS headers
`Access-Control-Allow-Origin: *`,
`Access-Control-Allow-Methods: GET, POST, OPTIONS` and
`Access-Control-Allow-Headers: Content-Type` with exactly those
values, because every response path flushes its headers through the
overridden `end_headers`. -/
theorem every_response_has_cors_headers (cfg : ServerConfig) (raw : String) :
    (⟨"Access-Control-Allow-Origin", "*"⟩ : Header) ∈
      (handleConnection cfg raw).headers ∧
    (⟨"Access-Control-Allow-Methods", "GET, POST, OPTIONS"⟩ : Header) ∈
      (handleConnection cfg raw).headers ∧
    (⟨"Access-Control-Allow-Headers", "Content-Type"⟩ : Header) ∈
      (handleConnection cfg raw).headers := by
  obtain ⟨hs, heq, -⟩ := handleConnection_headers_split cfg raw
  rw [heq]
  exact ⟨List.mem_append_right _ (by decide),
         List.mem_append_right _ (by decide),
         List.mem_append_right _ (by decide)⟩

/-- C10: In every response the server sends, each of the three CORS
header names appears exactly once in the header block — never
duplicated and never omitted — because the `end_headers` override
appends them once and the handler's own buffered headers never use
those names. -/
theorem cors_headers_appear_exactly_once (cfg : ServerConfig) (raw : String) :
    (handleConnection cfg raw).headers.countP
      (fun h => h.name == "Access-Control-Allow-Origin") = 1 ∧
    (handleConnection cfg raw).headers.countP
      (fun h => h.name == "Access-Control-Allow-Methods") = 1 ∧
    (handleConnection cfg raw).headers.countP
      (fun h => h.name == "Access-Control-Allow-Headers") = 1 := by
  obtain ⟨hs, heq, hno⟩ := handleConnection_headers_split cfg raw
  rw [heq]
  refine ⟨?_, ?_, ?_⟩ <;>
    rw [List.countP_append, countP_name_zero hs hno _ (by decide)] <;> decide

/-- C2: For every GET request whose path resolves to an existing regular
file under the base directory, the response status is 200, the body is
exactly the file's on-disk byte content, the `Content-Type` is inferred
from the file's extension and a `Content-Length` header carries the
body length. -/
theorem get_existing_file_served_exactly (cfg : ServerConfig) (p : String)
    (comps : List String) (bytes : List Nat) (v : String)
    (hres : resolvePath p = some comps)
    (hfile : fsLookup cfg.fs (cfg.base ++ comps) = some (Entry.file bytes)) :
    (handleRequest cfg ⟨"GET", p, v⟩).status = 200 ∧
    (handleRequest cfg ⟨"GET", p, v⟩).body = bytes ∧
    (⟨"Content-Type", guess_type (comps.getLastD "")⟩ : Header) ∈
      (handleRequest cfg ⟨"GET", p, v⟩).headers ∧
    (⟨"Content-Length", toString bytes.length⟩ : Header) ∈
      (handleRequest cfg ⟨"GET", p, v⟩).headers := by
  simp [handleRequest, handleGET, hres, hfile, respond, end_headers]

theorem get_existing_file_served_exactly_witness :
    (handleRequest ⟨[(["srv", "index.html"], Entry.file [104, 105])], ["srv"]⟩
      ⟨"GET", "/index.html", "HTTP/1.1"⟩).status = 200 ∧
    (handleRequest ⟨[(["srv", "index.html"], Entry.file [104, 105])], ["srv"]⟩
      ⟨"GET", "/index.html", "HTTP/1.1"⟩).body = [104, 105] ∧
    (⟨"Content-Type", guess_type (["index.html"].getLastD "")⟩ : Header) ∈
      (handleRequest ⟨[(["srv", "index.html"], Entry.file [104, 105])], ["srv"]⟩
        ⟨"GET", "/index.html", "HTTP/1.1"⟩).headers ∧
    (⟨"Content-Length", toString ([104, 105] : List Nat).length⟩ : Header) ∈
      (handleRequest ⟨[(["srv", "index.html"], Entry.file [104, 105])], ["srv"]⟩
        ⟨"GET", "/index.html", "HTTP/1.1"⟩).headers :=
  get_existing_file_served_exactly
    ⟨[(["srv", "index.html"], Entry.file [104, 105])], ["srv"]⟩
    "/index.html" ["index.html"] [104, 105] "HTTP/1.1" (by decide) (by decide)

/-- C3: For every GET request whose path does not map to an existing
file or directory under the base directory, the response status is 404
with the minimal (non-empty) error body, and the server goes on
handling subsequent connections afterwards. -/
theorem get_missing_404_and_continue (cfg : ServerConfig) (p : String)
    (comps : List String) (v : String)
    (hres : resolvePath p = some comps)
    (hmiss : fsLookup cfg.fs (cfg.base ++ comps) = none) :
    (handleRequest cfg ⟨"GET", p, v⟩).status = 404 ∧
    (handleRequest cfg ⟨"GET", p, v⟩).body = errorBody 404 "File not found" ∧
    (handleRequest cfg ⟨"GET", p, v⟩).body ≠ [] ∧
    ∀ (raw : String) (cs : List String),
      serveAll cfg (raw :: cs) = handleConnection cfg raw :: serveAll cfg cs := by
  refine ⟨?_, ?_, ?_, fun raw cs => rfl⟩ <;>
    simp [handleRequest, handleGET, hres, hmiss, errorResponse, respond,
          errorBody, strBytes]

theorem get_missing_404_and_continue_witness :
    (handleRequest ⟨[], ["srv"]⟩ ⟨"GET", "/missing.txt", "HTTP/1.1"⟩).status = 404 ∧
    (handleRequest ⟨[], ["srv"]⟩ ⟨"GET", "/missing.txt", "HTTP/1.1"⟩).body =
      errorBody 404 "File not found" ∧
    (handleRequest ⟨[], ["srv"]⟩ ⟨"GET", "/missing.txt", "HTTP/1.1"⟩).body ≠ [] ∧
    ∀ (raw : String) (cs : List String),
      serveAll ⟨[], ["srv"]⟩ (raw :: cs) =
        handleConnection ⟨[], ["srv"]⟩ raw :: serveAll ⟨[], ["srv"]⟩ cs :=
  get_missing_404_and_continue ⟨[], ["srv"]⟩ "/missing.txt" ["missing.txt"]
    "HTTP/1.1" (by decide) (by decide)

/-- C4: A request path that attempts to escape the base directory (such
as one containing `../../etc/passwd`) is rejected by path resolution and
answered 404; moreover any 200 response's body originates from an entry
whose path lies under the configured base directory (a file's exact
content or a directory's generated listing), so content of a file
outside the base directory is never returned. -/
theorem path_escape_rejected_and_contained (cfg : ServerConfig) (p : String) :
    (resolvePath p = none →
      (handleGET cfg p).status = 404 ∧
      (handleGET cfg p).body = errorBody 404 "File not found") ∧
    ((handleGET cfg p).status = 200 →
      ∃ q, cfg.base <+: q ∧
        (fsLookup cfg.fs q = some (Entry.file (handleGET cfg p).body) ∨
         (fsLookup cfg.fs q = some Entry.dir ∧
          (handleGET cfg p).body = listingBody cfg.fs q))) := by
  constructor
  · intro hres
    simp [handleGET, hres, errorResponse, respond]
  · intro h200
    cases hres : resolvePath p with
    | none =>
        exfalso
        simp [handleGET, hres, errorResponse, respond] at h200
    | some comps =>
        cases hl : fsLookup cfg.fs (cfg.base ++ comps) with
        | none =>
            exfalso
            simp [handleGET, hres, hl, errorResponse, respond] at h200
        | some e =>
            cases e with
            | file bytes =>
                refine ⟨cfg.base ++ comps, List.prefix_append _ _, Or.inl ?_⟩
                have hb : (handleGET cfg p).body = bytes := by
                  simp [handleGET, hres, hl, respond]
                rw [hb]
                exact hl
            | dir =>
                refine ⟨cfg.base ++ comps, List.prefix_append _ _,
                        Or.inr ⟨hl, ?_⟩⟩
                simp [handleGET, hres, hl, respond]

theorem path_escape_rejected_and_contained_witness :
    (handleGET ⟨[(["etc", "passwd"], Entry.file [42])], ["srv"]⟩
      "/../../etc/passwd").status = 404 ∧
    (handleGET ⟨[(["etc", "passwd"], Entry.file [42])], ["srv"]⟩
      "/../../etc/passwd").body = errorBody 404 "File not found" :=
  (path_escape_rejected_and_contained
    ⟨[(["etc", "passwd"], Entry.file [42])], ["srv"]⟩
    "/../../etc/passwd").1 (by decide)

/-- C5: The server binds a TCP socket on all interfaces (`0.0.0.0`) at
port 5000, and while that binding is held, a second bind attempt on the
same port fails (no SO_REUSEPORT-style silent double-bind), whatever
host string it uses. -/
theorem binds_port_5000_no_double_bind :
    HOST = "0.0.0.0" ∧ PORT = 5000 ∧
    bindSocket [] HOST PORT = Except.ok [("0.0.0.0", 5000)] ∧
    (∀ h : String, bindSocket [("0.0.0.0", 5000)] h PORT =
      Except.error "Address already in use") :=
  ⟨rfl, rfl, rfl, fun _ => rfl⟩

/-- C6: When the bind fails (port in use or permission denied), the
process terminates with a non-zero exit code; the trace contains exactly
one bind attempt — no retry — and every bind attempt targets port 5000
on `0.0.0.0`, so no fallback port is ever tried. -/
theorem bind_failure_fatal (bound : List (String × Nat)) (cwd : String)
    (e : String) (hfail : bindSocket bound HOST PORT = Except.error e) :
    (main_trace bound cwd).2 = some 1 ∧
    (main_trace bound cwd).2 ≠ some 0 ∧
    (main_trace bound cwd).1.countP Effect.isBindAttempt = 1 ∧
    ∀ h pt, Effect.bindAttempt h pt ∈ (main_trace bound cwd).1 →
      h = HOST ∧ pt = PORT := by
  refine ⟨?_, ?_, ?_, ?_⟩
  · simp [main_trace, hfail]
  · simp [main_trace, hfail]
  · simp [main_trace, hfail, List.countP_cons, Effect.isBindAttempt]
  · intro h pt hmem
    simp [main_trace, hfail] at hmem
    obtain ⟨h1, h2⟩ := hmem
    exact ⟨h1, h2⟩

theorem bind_failure_fatal_witness :
    (main_trace [("0.0.0.0", 5000)] "/srv").2 = some 1 ∧
    (main_trace [("0.0.0.0", 5000)] "/srv").2 ≠ some 0 ∧
    (main_trace [("0.0.0.0", 5000)] "/srv").1.countP Effect.isBindAttempt = 1 ∧
    ∀ h pt, Effect.bindAttempt h pt ∈ (main_trace [("0.0.0.0", 5000)] "/srv").1 →
      h = HOST ∧ pt = PORT :=
  bind_failure_fatal [("0.0.0.0", 5000)] "/srv" "Address already in use" rfl

/-- C7: On a successful bind, startup emits exactly three lines to
standard output, in order — the server URL line, the browser navigation
hint and the line giving the absolute path of the serving directory —
and only then enters the blocking accept loop, which never returns an
exit code on its own (the process runs until externally interrupted). -/
theorem startup_prints_then_serves (bound : List (String × Nat)) (cwd : String)
    (st : List (String × Nat))
    (hok : bindSocket bound HOST PORT = Except.ok st) :
    main_trace bound cwd =
      ([Effect.chdir ".", Effect.bindAttempt "0.0.0.0" 5000,
        Effect.printLine
          "✅ DHA Document Generator Server running at http://localhost:5000",
        Effect.printLine "📄 Navigate to http://localhost:5000 in your browser",
        Effect.printLine ("📁 Serving files from: " ++ cwd),
        Effect.serveForever], none) ∧
    (main_trace bound cwd).1.filterMap Effect.printOf =
      [startupLine1, startupLine2, startupLine3 cwd] ∧
    (main_trace bound cwd).1.getLast? = some Effect.serveForever := by
  have ht : main_trace bound cwd =
      ([Effect.chdir DIRECTORY, Effect.bindAttempt HOST PORT,
        Effect.printLine startupLine1, Effect.printLine startupLine2,
        Effect.printLine (startupLine3 cwd), Effect.serveForever], none) := by
    simp [main_trace, hok]
  refine ⟨?_, ?_, ?_⟩ <;> rw [ht] <;> rfl

theorem startup_prints_then_serves_witness :
    main_trace [] "/srv/app" =
      ([Effect.chdir ".", Effect.bindAttempt "0.0.0.0" 5000,
        Effect.printLine
          "✅ DHA Document Generator Server running at http://localhost:5000",
        Effect.printLine "📄 Navigate to http://localhost:5000 in your browser",
        Effect.printLine ("📁 Serving files from: " ++ "/srv/app"),
        Effect.serveForever], none) ∧
    (main_trace [] "/srv/app").1.filterMap Effect.printOf =
      [startupLine1, startupLine2, startupLine3 "/srv/app"] ∧
    (main_trace [] "/srv/app").1.getLast? = some Effect.serveForever :=
  startup_prints_then_serves [] "/srv/app" [("0.0.0.0", 5000)] rfl

/-- C8: The startup code changes the working directory to the configured
base directory `"."` as its first effect, before the bind attempt, and
never changes it again (exactly one `chdir` occurs in the whole trace,
whether the bind succeeds or fails). -/
theorem chdir_first_then_bind (bound : List (String × Nat)) (cwd : String) :
    DIRECTORY = "." ∧
    (main_trace bound cwd).1.take 2 =
      [Effect.chdir ".", Effect.bindAttempt HOST PORT] ∧
    (main_trace bound cwd).1.countP Effect.isChdir = 1 := by
  refine ⟨rfl, ?_, ?_⟩ <;>
  · unfold main_trace
    cases bindSocket bound HOST PORT <;>
      simp [List.countP_cons, Effect.isChdir, DIRECTORY]

/-- C9: A malformed request on an accepted connection is answered with
the default 400 response (a 4xx status), and the server does not crash:
it goes on handling every subsequent connection. -/
theorem malformed_request_answered_4xx (cfg : ServerConfig) (raw : String)
    (hbad : parseRequest raw = none) :
    (handleConnection cfg raw).status = 400 ∧
    400 ≤ (handleConnection cfg raw).status ∧
    (handleConnection cfg raw).status < 500 ∧
    ∀ (cs : List String),
      serveAll cfg (raw :: cs) = handleConnection cfg raw :: serveAll cfg cs := by
  have hs : (handleConnection cfg raw).status = 400 := by
    simp [handleConnection, hbad, errorResponse, respond]
  exact ⟨hs, by rw [hs], by rw [hs]; norm_num, fun cs => rfl⟩

theorem malformed_request_answered_4xx_witness :
    (handleConnection ⟨[], ["srv"]⟩ "garbage").status = 400 ∧
    400 ≤ (handleConnection ⟨[], ["srv"]⟩ "garbage").status ∧
    (handleConnection ⟨[], ["srv"]⟩ "garbage").status < 500 ∧
    ∀ (cs : List String),
      serveAll ⟨[], ["srv"]⟩ ("garbage" :: cs) =
        handleConnection ⟨[], ["srv"]⟩ "garbage" :: serveAll ⟨[], ["srv"]⟩ cs :=
  malformed_request_answered_4xx ⟨[], ["srv"]⟩ "garbage" (by decide)

end StartServer

